import Mathlib

/-!
Shallow embedding of the Nemea IP-spoofing detector (src/spoofing/spoofing.cpp)
and proofs about its claims.

Conventions of the embedding:
* Machine integers are `Nat` with explicit modular arithmetic where overflow or
  truncation matters (`% 2^32`, wrap-around subtraction `sub64`).
* An `ip_addr_t` is represented by its 16 storage bytes (network order, i.e. the
  most significant byte of the address first) together with the address-family
  tag the spec describes (spec section 3).  The host is little-endian, so the
  `ui32` / `ui64` lanes of the C union are the little-endian values of the
  corresponding 4- and 8-byte groups of storage bytes; `memcmp` is the
  lexicographic comparison of the storage bytes.
* C++ behaviour that is undefined (reading an uninitialized variable, a shift by
  a negative count, an out-of-bounds table read) is represented by `Option`:
  `none` means the source computes no defined value.  Loops are embedded with an
  explicit fuel argument that strictly exceeds the iteration bound of the
  corresponding `while` loop, so fuel exhaustion is unreachable on the calls
  made here.
-/

/-- Verdict of a filter stage: `SPOOF_POSITIVE` / `SPOOF_NEGATIVE` from spoofing.h
(only their distinctness is relevant). -/
inductive Verdict where
  | positive
  | negative
  deriving DecidableEq

/-- Little-endian value of a list of bytes (first byte least significant). -/
def leVal (l : List Nat) : Nat := l.foldr (fun b acc => b + 256 * acc) 0

/-- Big-endian value of a list of bytes (first byte most significant). -/
def beVal (l : List Nat) : Nat := l.foldl (fun acc b => 256 * acc + b) 0

/-- The `w` little-endian bytes of a value. -/
def bytesLE : Nat → Nat → List Nat
  | 0, _ => []
  | w + 1, x => x % 256 :: bytesLE w (x / 256)

/-- C `memcmp` on byte sequences: lexicographic comparison of unsigned bytes. -/
def memcmpBytes : List Nat → List Nat → Ordering
  | [], [] => .eq
  | [], _ :: _ => .lt
  | _ :: _, [] => .gt
  | x :: xs, y :: ys =>
    if x < y then .lt else if y < x then .gt else memcmpBytes xs ys

/-- Modelled from the spec: `ip_addr_t` of ipaddr.h (not under src/).  A 128-bit
value as 16 storage bytes in network order, plus the address-family tag of
spec section 3 ("plus a family tag"). -/
structure IpAddr where
  bytes : List Nat
  fam4 : Bool
  deriving DecidableEq

/-- The `ui64[h]` lane of the union: little-endian value of storage bytes
`8h .. 8h+7`. -/
def IpAddr.ui64 (a : IpAddr) (h : Nat) : Nat := leVal ((a.bytes.drop (8 * h)).take 8)

/-- The `ui32[2]` lane of the union (the IPv4 lane): little-endian value of
storage bytes 8..11. -/
def IpAddr.ui32lane2 (a : IpAddr) : Nat := leVal ((a.bytes.drop 8).take 4)

/-- Assignment to the `ui32[2]` lane: replaces storage bytes 8..11 by the
little-endian bytes of the new value. -/
def IpAddr.setLane2 (a : IpAddr) (v : Nat) : IpAddr :=
  { a with bytes := a.bytes.take 8 ++ bytesLE 4 v ++ a.bytes.drop 12 }

/-- Modelled from the spec: `ip_is4` of ipaddr.h (not under src/) reads the
family tag of the address. -/
def ip_is4 (a : IpAddr) : Bool := a.fam4

/-- Modelled from the spec: `ip_get_v4_as_int` of ipaddr.h (not under src/)
returns the embedded IPv4 address (storage bytes 8..11) as a host-order
integer, most significant octet first — spec section 4.3 masks it with
`0xFFFFFF00` to keep the first three octets. -/
def ip_get_v4_as_int (a : IpAddr) : Nat := beVal ((a.bytes.drop 8).take 4)

/-- Modelled from the spec: `ip_to_str` of ipaddr.h (not under src/) renders the
address to its canonical text form (spec section 4.4 step 4), a deterministic
key that depends on the 4 IPv4 storage bytes for a v4 address and on all 16
bytes for a v6 address. -/
def ipToStr (a : IpAddr) : List Nat :=
  if a.fam4 then (a.bytes.drop 8).take 4 else a.bytes

/-- Record layout consumed by the detector (`ur_basic_flow_t`, declared in
unirec.h which is not under src/; field set and widths from spec section 6). -/
structure UrBasicFlow where
  src_addr : IpAddr
  dst_addr : IpAddr
  first : Nat
  linkbitfield : Nat
  dirbitfield : Nat
  deriving DecidableEq

/-- An `ip_prefix_t`: address plus prefix length (spoofing.h). -/
structure IpPref where
  ip : IpAddr
  pref_length : Nat
  deriving DecidableEq

/-- C++ right shift of a 32-bit unsigned value by a signed count: undefined
(`none`) unless `0 ≤ s < 32`. -/
def shr32 (x : Nat) (s : Int) : Option Nat :=
  if 0 ≤ s ∧ s < 32 then some (x >>> s.toNat) else none

/-- C++ right shift of a 64-bit unsigned value by a signed count: undefined
(`none`) unless `0 ≤ s < 64`. -/
def shr64 (x : Nat) (s : Int) : Option Nat :=
  if 0 ≤ s ∧ s < 64 then some (x >>> s.toNat) else none

/-- `create_v4_mask_map` (spoofing.cpp:130): entry 0 is explicitly 0, entry `i`
(1..32) is `0xFFFFFFFF >> (32 - i)`.  Entries beyond the 33-element array are
out of bounds (`none`). -/
def v4mm (L : Nat) : Option Nat :=
  if L ≤ 32 then
    if L = 0 then some 0 else shr32 0xFFFFFFFF (32 - (L : Int))
  else none

/-- `create_v6_mask_map` (spoofing.cpp:146): entry 0 is explicitly (0, 0); for
`i` in 1..128, if `i < 64` the pair is `(~0 >> (64 - i), 0)`, otherwise it is
`(~0, ~0 >> (64 - i))` — for `i > 64` that shift count is negative, hence
undefined.  Entries beyond the 129-element array are out of bounds. -/
def v6mm (L : Nat) : Option Nat × Option Nat :=
  if L ≤ 128 then
    if L = 0 then (some 0, some 0)
    else if L < 64 then (shr64 0xFFFFFFFFFFFFFFFF (64 - (L : Int)), some 0)
    else (some 0xFFFFFFFFFFFFFFFF, shr64 0xFFFFFFFFFFFFFFFF (64 - (L : Int)))
  else (none, none)

/-- Wrap-around subtraction of 64-bit unsigned values. -/
def sub64 (a b : Nat) : Nat := (a + 2 ^ 64 - b % 2 ^ 64) % 2 ^ 64

/-- Lookup in a `std::map` represented as an association list
(`map::count` > 0 iff the result is `some`). -/
def mLookup {α : Type} : List (Nat × α) → Nat → Option α
  | [], _ => none
  | (k, v) :: rest, key => if k = key then some v else mLookup rest key

/-- `map::operator[]` assignment to an existing key: replaces the stored value. -/
def mSet {α : Type} : List (Nat × α) → Nat → α → List (Nat × α)
  | [], _, _ => []
  | (k, v) :: rest, key, nv =>
    if k = key then (k, nv) :: rest else (k, v) :: mSet rest key nv

/-- `map::insert`: inserts only when the key is absent (a no-op when the key is
already present). -/
def mInsert {α : Type} (m : List (Nat × α)) (key : Nat) (v : α) : List (Nat × α) :=
  if (mLookup m key).isSome then m else (key, v) :: m

/-- `sym_src_t` for the IPv4 symmetry map.  Modelled from the spec (spoofing.h
is not under src/): `{link_mask : u64, last_seen : u64}` (spec section 3). -/
structure SymSrc where
  link : Nat
  timestamp : Nat
  deriving DecidableEq

/-- `sym_src_t` as used by the IPv6 symmetry map: `check_symetry_v6` never
writes the timestamp field (both writes are commented out in the source), so a
stored timestamp may be an uninitialized (indeterminate) value, represented by
`none`. -/
structure SymSrcV6 where
  link : Nat
  timestamp : Option Nat
  deriving DecidableEq

/-- `check_symetry_v4` (spoofing.cpp:391).  Outbound (`dirbitfield == 0`):
key is the destination /24; a fresh entry gets the link OR-ed in and the
timestamp rewritten via `operator[]`, otherwise `map::insert` is called (which
does nothing when the key is already present).  Inbound: the stored link mask
is AND-ed with the record link and truncated to a 32-bit `int` before the zero
test (`int valid = ... ;`). -/
def check_symetry_v4 (record : UrBasicFlow) (src : List (Nat × SymSrc))
    (rw_time : Nat) : Verdict × List (Nat × SymSrc) :=
  if record.dirbitfield = 0 then
    let v4_numeric := Nat.land (ip_get_v4_as_int record.dst_addr) 0xFFFFFF00
    match mLookup src v4_numeric with
    | some e =>
      if sub64 (Nat.land record.first 0xFFFFFFFF00000000) e.timestamp < rw_time then
        (.negative,
          mSet src v4_numeric ⟨Nat.lor e.link record.linkbitfield, record.first⟩)
      else
        (.negative, mInsert src v4_numeric ⟨record.linkbitfield, record.first⟩)
    | none => (.negative, mInsert src v4_numeric ⟨record.linkbitfield, record.first⟩)
  else
    let v4_numeric := Nat.land (ip_get_v4_as_int record.src_addr) 0xFFFFFF00
    match mLookup src v4_numeric with
    | some e =>
      if Nat.land e.link record.linkbitfield % 2 ^ 32 = 0 then (.positive, src)
      else (.negative, src)
    | none => (.negative, src)

/-- The in-place normalisation `check_symetry_v6` applies to an address:
`ip_from_16_bytes_le` (modelled from the spec: it builds the address from the
16 bytes taken in little-endian order, i.e. it reverses the byte string)
followed by swapping the two `ui64` halves; the net effect reverses the bytes
within each 8-byte half. -/
def swapHalves (a : IpAddr) : IpAddr :=
  { bytes := (a.bytes.take 8).reverse ++ (a.bytes.drop 8).reverse, fam4 := a.fam4 }

/-- The record mutation performed by `check_symetry_v6` (spoofing.cpp:478-490):
both addresses of the record are normalised in place (the record lives in the
receive buffer, so the mutation is visible to all later stages and to the
output). -/
def swapRecord (r : UrBasicFlow) : UrBasicFlow :=
  { r with src_addr := swapHalves r.src_addr, dst_addr := swapHalves r.dst_addr }

/-- `check_symetry_v6` (spoofing.cpp:468).  First mutates the record, then:
outbound — OR the link into a fresh entry (the timestamp is never written; a
fresh test reads the stored timestamp, which is `none` = indeterminate for
every entry this function ever created, hence `none` = undefined); inbound —
the truncated-to-`int` AND test.  Returns the mutated record. -/
def check_symetry_v6 (record : UrBasicFlow) (src : List (Nat × SymSrcV6))
    (rw_time : Nat) : Option (Verdict × List (Nat × SymSrcV6) × UrBasicFlow) :=
  let rec1 := swapRecord record
  if rec1.dirbitfield = 0 then
    let key := rec1.dst_addr.ui64 0
    match mLookup src key with
    | some e =>
      match e.timestamp with
      | none => none
      | some t =>
        if sub64 (Nat.land rec1.first 0xFFFFFFFF00000000) t < rw_time then
          some (.negative,
            mSet src key ⟨Nat.lor e.link rec1.linkbitfield, e.timestamp⟩, rec1)
        else
          some (.negative, mInsert src key ⟨rec1.linkbitfield, none⟩, rec1)
    | none => some (.negative, mInsert src key ⟨rec1.linkbitfield, none⟩, rec1)
  else
    let key := rec1.src_addr.ui64 0
    match mLookup src key with
    | some e =>
      some ((if Nat.land e.link rec1.linkbitfield % 2 ^ 32 = 0 then .positive
             else .negative), src, rec1)
    | none => some (.negative, src, rec1)

/-- One comparison step of the IPv4 binary search (spoofing.cpp:269/590):
mask the v4 lane with the table entry for the midpoint's length and `memcmp`
the 4 bytes against the stored address.  `none` when the mask table read is out
of bounds. -/
def v4PrefCmp (a : IpAddr) (pl : List IpPref) (mid : Nat) : Option Ordering :=
  match pl.get? mid with
  | none => none
  | some p =>
    match v4mm p.pref_length with
    | none => none
    | some m =>
      some (memcmpBytes ((p.ip.bytes.drop 8).take 4)
        (bytesLE 4 (Nat.land a.ui32lane2 m)))

/-- The shared binary-search loop shape (`while (begin <= end)` with
`mid = (begin + end) >> 1`): inner `some mid` = comparison hit equality at
`mid`, inner `none` = the loop terminated without a hit, outer `none` = an
undefined comparison.  Fuel strictly exceeding the interval size makes fuel
exhaustion unreachable. -/
def bsearchGo (cmpAt : Nat → Option Ordering) : Nat → Nat → Nat → Option (Option Nat)
  | 0, _, _ => none
  | fuel + 1, b, e =>
    if b ≤ e then
      let mid := (b + e) / 2
      match cmpAt mid with
      | none => none
      | some .lt => bsearchGo cmpAt fuel (mid + 1) e
      | some .eq => some (some mid)
      | some .gt => if mid = 0 then some none else bsearchGo cmpAt fuel b (mid - 1)
    else some none

/-- `v4_bogon_filter` (spoofing.cpp:252): binary search of the record's source
address in the sorted v4 list; a hit is POSITIVE. -/
def v4_bogon_filter (checked : UrBasicFlow) (pl : List IpPref) : Option Verdict :=
  if pl.length = 0 then some .negative
  else
    match bsearchGo (v4PrefCmp checked.src_addr pl) (pl.length + 1) 0 (pl.length - 1) with
    | none => none
    | some (some _) => some .positive
    | some none => some .negative

/-- The binary-search loop of `v6_bogon_filter` (spoofing.cpp:321-365).  The
local `masked` persists across iterations; `mh`/`ml` carry its two halves,
`none` = not yet assigned (indeterminate).  A length ≤ 64 masks the high half
and compares its 8 bytes; a longer length masks the low half and compares all
16 bytes — reading the possibly unassigned high half, and using the undefined
low mask word for lengths > 64. -/
def v6BogonGo (a : IpAddr) (pl : List IpPref) :
    Nat → Option Nat → Option Nat → Nat → Nat → Option (Option Nat)
  | 0, _, _, _, _ => none
  | fuel + 1, mh, ml, b, e =>
    if b ≤ e then
      let mid := (b + e) / 2
      match pl.get? mid with
      | none => none
      | some p =>
        if p.pref_length ≤ 64 then
          match (v6mm p.pref_length).1 with
          | none => none
          | some mv =>
            let mhv := Nat.land (a.ui64 0) mv
            match memcmpBytes (p.ip.bytes.take 8) (bytesLE 8 mhv) with
            | .lt => v6BogonGo a pl fuel (some mhv) ml (mid + 1) e
            | .eq => some (some mid)
            | .gt =>
              if mid = 0 then some none
              else v6BogonGo a pl fuel (some mhv) ml b (mid - 1)
        else
          match (v6mm p.pref_length).2 with
          | none => none
          | some mv =>
            let mlv := Nat.land (a.ui64 1) mv
            match mh with
            | none => none
            | some mhv =>
              match memcmpBytes p.ip.bytes (bytesLE 8 mhv ++ bytesLE 8 mlv) with
              | .lt => v6BogonGo a pl fuel mh (some mlv) (mid + 1) e
              | .eq => some (some mid)
              | .gt =>
                if mid = 0 then some none
                else v6BogonGo a pl fuel mh (some mlv) b (mid - 1)
    else some none

/-- `v6_bogon_filter` (spoofing.cpp:312). -/
def v6_bogon_filter (checked : UrBasicFlow) (pl : List IpPref) : Option Verdict :=
  if pl.length = 0 then some .negative
  else
    match v6BogonGo checked.src_addr pl (pl.length + 1) none none 0 (pl.length - 1) with
    | none => none
    | some (some _) => some .positive
    | some none => some .negative

/-- The binary-search loop of `check_new_flows_v6` (spoofing.cpp:694-711).  The
length test is the reverse of the bogon filter's: a length > 64 masks the HIGH
half and compares its 8 bytes, a length ≤ 64 masks the LOW half and compares
all 16 bytes — including the high half of `masked`, which is unassigned until
some iteration takes the > 64 branch. -/
def v6NfGo (a : IpAddr) (pl : List IpPref) :
    Nat → Option Nat → Option Nat → Nat → Nat → Option (Option Nat)
  | 0, _, _, _, _ => none
  | fuel + 1, mh, ml, b, e =>
    if b ≤ e then
      let mid := (b + e) / 2
      match pl.get? mid with
      | none => none
      | some p =>
        if 64 < p.pref_length then
          match (v6mm p.pref_length).1 with
          | none => none
          | some mv =>
            let mhv := Nat.land (a.ui64 0) mv
            match memcmpBytes (p.ip.bytes.take 8) (bytesLE 8 mhv) with
            | .lt => v6NfGo a pl fuel (some mhv) ml (mid + 1) e
            | .eq => some (some mid)
            | .gt =>
              if mid = 0 then some none
              else v6NfGo a pl fuel (some mhv) ml b (mid - 1)
        else
          match (v6mm p.pref_length).2 with
          | none => none
          | some mv =>
            let mlv := Nat.land (a.ui64 1) mv
            match mh with
            | none => none
            | some mhv =>
              match memcmpBytes p.ip.bytes (bytesLE 8 mhv ++ bytesLE 8 mlv) with
              | .lt => v6NfGo a pl fuel mh (some mlv) (mid + 1) e
              | .eq => some (some mid)
              | .gt =>
                if mid = 0 then some none
                else v6NfGo a pl fuel mh (some mlv) b (mid - 1)
    else some none

/-- `flow_count_t`.  Modelled from the spec (spoofing.h and the Bloom-filter
library are not under src/): a Bloom filter over aggregated source keys plus a
count.  The Bloom filter is modelled as the exact set of inserted keys — the
spec treats false positives as semantically invisible, and the filter has no
false negatives. -/
structure FlowCount where
  sources : List (List Nat)
  count : Nat
  deriving DecidableEq

/-- The pair `flow_filter_t filters[2]` with the fixed roles
`bf_active = 0`, `bf_learning = 1` (`swap_filters` is never called by the run
loop — the rotation code is commented out).  The `timestamp` field is read only
into dead locals `tf`/`tr` and is omitted. -/
structure FlowFilterPair where
  act : List FlowCount
  lrn : List FlowCount
  deriving DecidableEq

/-- `create_nflow_filters` (spoofing.cpp:72): pushes `length` fresh buckets
with count 0 onto both the active and the learning side. -/
def create_nflow_filters (length : Nat) : FlowFilterPair :=
  ⟨List.replicate length ⟨[], 0⟩, List.replicate length ⟨[], 0⟩⟩

/-- In-place update of `flows[mid]` in a bucket vector. -/
def listModif {α : Type} : List α → Nat → (α → α) → List α
  | [], _, _ => []
  | x :: xs, 0, f => f x :: xs
  | x :: xs, n + 1, f => x :: listModif xs n f

/-- `check_new_flows_v4` (spoofing.cpp:548).  Binary search of the DESTINATION
address in the watched list; when the list is empty the loop never runs and
the code then reads the uninitialized `search_result` (`none` = undefined).
On a hit: aggregate the source to /24, build the key, probe the active Bloom
filter; if absent insert into both filters and bump both counts, POSITIVE
exactly when the active count after the increment exceeds the threshold. -/
def check_new_flows_v4 (record : UrBasicFlow) (threshold : Nat)
    (fp : FlowFilterPair) (pl : List IpPref) : Option (Verdict × FlowFilterPair) :=
  if pl.length = 0 then none
  else
    match bsearchGo (v4PrefCmp record.dst_addr pl) (pl.length + 1) 0 (pl.length - 1) with
    | none => none
    | some none => some (.negative, fp)
    | some (some mid) =>
      match v4mm 24 with
      | none => none
      | some m24 =>
        let aggr := record.src_addr.setLane2 (Nat.land record.src_addr.ui32lane2 m24)
        let key := ipToStr aggr
        let act := fp.act.getD mid ⟨[], 0⟩
        if key ∈ act.sources then some (.negative, fp)
        else
          let bump : FlowCount → FlowCount := fun fc => ⟨key :: fc.sources, fc.count + 1⟩
          let fp' : FlowFilterPair := ⟨listModif fp.act mid bump, listModif fp.lrn mid bump⟩
          some ((if threshold < act.count + 1 then .positive else .negative), fp')

/-- `check_new_flows_v6` (spoofing.cpp:654).  Binary search of the SOURCE
address (with the reversed length test, see `v6NfGo`); aggregation keeps the
high `ui64` half (masked with `mm[64][0]`) and zeroes the low half. -/
def check_new_flows_v6 (record : UrBasicFlow) (threshold : Nat)
    (fp : FlowFilterPair) (pl : List IpPref) : Option (Verdict × FlowFilterPair) :=
  if pl.length = 0 then none
  else
    match v6NfGo record.src_addr pl (pl.length + 1) none none 0 (pl.length - 1) with
    | none => none
    | some none => some (.negative, fp)
    | some (some mid) =>
      match (v6mm 64).1 with
      | none => none
      | some m64 =>
        let aggr : IpAddr :=
          { bytes := bytesLE 8 (Nat.land (record.src_addr.ui64 0) m64) ++
              bytesLE 8 (Nat.land (record.src_addr.ui64 1) 0),
            fam4 := record.src_addr.fam4 }
        let key := ipToStr aggr
        let act := fp.act.getD mid ⟨[], 0⟩
        if key ∈ act.sources then some (.negative, fp)
        else
          let bump : FlowCount → FlowCount := fun fc => ⟨key :: fc.sources, fc.count + 1⟩
          let fp' : FlowFilterPair := ⟨listModif fp.act mid bump, listModif fp.lrn mid bump⟩
          some ((if threshold < act.count + 1 then .positive else .negative), fp')

/-- Configuration fixed before the run loop: the four sorted lists, the
symmetry rewrite window and the new-flow threshold. -/
structure DetectorCfg where
  bogon4 : List IpPref
  bogon6 : List IpPref
  spec4 : List IpPref
  spec6 : List IpPref
  rw_time : Nat
  threshold : Nat

/-- Mutable detector state across records: the two symmetry maps and the two
Bloom-filter pairs. -/
structure DetectorState where
  v4RouteSym : List (Nat × SymSrc)
  v6RouteSym : List (Nat × SymSrcV6)
  v4Flows : FlowFilterPair
  v6Flows : FlowFilterPair
  deriving DecidableEq

/-- Stage 1 of the main loop (spoofing.cpp:931-941): the bogon list on the
record's source, then — only when the first result is NEGATIVE and the record
is inbound (`dirbitfield == 0x01`) — the specific-networks list. -/
def bogonStage (cfg : DetectorCfg) (r : UrBasicFlow) : Option Verdict :=
  if ip_is4 r.src_addr then
    match v4_bogon_filter r cfg.bogon4 with
    | none => none
    | some v =>
      if v = .negative ∧ r.dirbitfield = 1 then v4_bogon_filter r cfg.spec4
      else some v
  else
    match v6_bogon_filter r cfg.bogon6 with
    | none => none
    | some v =>
      if v = .negative ∧ r.dirbitfield = 1 then v6_bogon_filter r cfg.spec6
      else some v

/-- The body of the main processing loop for one record (spoofing.cpp:930-991):
bogon stage, then symmetry, then new flows; a POSITIVE verdict emits the
current record (`trap_send_data`) and skips the remaining stages.  The second
component of the result is the emitted record, if any. -/
def processRecord (cfg : DetectorCfg) (st : DetectorState) (r : UrBasicFlow) :
    Option (DetectorState × Option UrBasicFlow) :=
  match bogonStage cfg r with
  | none => none
  | some Verdict.positive => some (st, some r)
  | some Verdict.negative =>
    if ip_is4 r.src_addr then
      match check_symetry_v4 r st.v4RouteSym cfg.rw_time with
      | (Verdict.positive, m') => some ({ st with v4RouteSym := m' }, some r)
      | (Verdict.negative, m') =>
        match check_new_flows_v4 r cfg.threshold st.v4Flows cfg.spec4 with
        | none => none
        | some (v2, fp') =>
          some ({ st with v4RouteSym := m', v4Flows := fp' },
            if v2 = Verdict.positive then some r else none)
    else
      match check_symetry_v6 r st.v6RouteSym cfg.rw_time with
      | none => none
      | some (Verdict.positive, m', r1) => some ({ st with v6RouteSym := m' }, some r1)
      | some (Verdict.negative, m', r1) =>
        match check_new_flows_v6 r1 cfg.threshold st.v6Flows cfg.spec6 with
        | none => none
        | some (v2, fp') =>
          some ({ st with v6RouteSym := m', v6Flows := fp' },
            if v2 = Verdict.positive then some r1 else none)

/-- The detector state at entry of the run loop: empty symmetry maps and
Bloom-filter pairs of the sizes of the watched lists (spoofing.cpp:881-882). -/
def initState (cfg : DetectorCfg) : DetectorState :=
  { v4RouteSym := [], v6RouteSym := [],
    v4Flows := create_nflow_filters cfg.spec4.length,
    v6Flows := create_nflow_filters cfg.spec6.length }

/-- States the run loop can reach: the initial state, closed under processing
one record (on its defined executions). -/
inductive Reachable (cfg : DetectorCfg) : DetectorState → Prop
  | init : Reachable cfg (initState cfg)
  | step (st : DetectorState) (r : UrBasicFlow) (st' : DetectorState)
      (out : Option UrBasicFlow) : Reachable cfg st →
      processRecord cfg st r = some (st', out) → Reachable cfg st'

/-- Return codes of `load_pref`.  Modelled from the spec (spoofing.h is not
under src/): `ALL_OK` is 0, `BOGON_FILE_ERROR` is a nonzero exit code. -/
def ALL_OK : Nat := 0

/-- Nonzero error code returned by `load_pref` when the file cannot be opened. -/
def BOGON_FILE_ERROR : Nat := 1

/-- The return value of `load_pref` (spoofing.cpp:185) as a function of whether
the file could be opened (file readability is the environment, passed as a
parameter). -/
def load_pref_ret (readable : Bool) : Nat :=
  if readable then ALL_OK else BOGON_FILE_ERROR

/-- The start-up logic of `main` that decides whether the run loop is entered
(spoofing.cpp:825-877): exit if `-b` was not given; load the bogon file, then
load the `-c` file into the SAME `retval` variable; exit iff that final value
is `BOGON_FILE_ERROR`.  Returns `true` iff the run loop is entered. -/
def mainEntersLoop (b_flag bReadable cReadable : Bool) : Bool :=
  if b_flag then
    let retval := load_pref_ret bReadable
    let retval := load_pref_ret cReadable
    decide (retval ≠ BOGON_FILE_ERROR)
  else false

/-- IPv4 address constant (stored in lane 2 of the 16-byte value). -/
def addrV4 (a b c d : Nat) : IpAddr :=
  ⟨[0, 0, 0, 0, 0, 0, 0, 0, a, b, c, d, 0, 0, 0, 0], true⟩

/-- IPv4 watched/bogon list entry. -/
def prefV4 (a b c d len : Nat) : IpPref := ⟨addrV4 a b c d, len⟩

/-- Example configuration: bogon set `{10.0.0.0/8}`, no other lists. -/
def cfg0 : DetectorCfg :=
  { bogon4 := [prefV4 10 0 0 0 8], bogon6 := [], spec4 := [], spec6 := [],
    rw_time := 45, threshold := 1000 }

/-- Example record: outbound v4 flow from 10.1.2.3 (a bogon source). -/
def r0 : UrBasicFlow :=
  { src_addr := addrV4 10 1 2 3, dst_addr := addrV4 8 8 8 8,
    first := 0, linkbitfield := 0, dirbitfield := 0 }

/-- Example state: the detector's initial state for `cfg0`. -/
def st0 : DetectorState := initState cfg0

/-- Outbound record to 203.0.113.1 with link 1 at seconds 100. -/
def r2a : UrBasicFlow :=
  { src_addr := addrV4 192 0 2 5, dst_addr := addrV4 203 0 113 1,
    first := 100 * 2 ^ 32, linkbitfield := 1, dirbitfield := 0 }

/-- Outbound record to the same /24 with link 2 at seconds 200 (past the
45-second rewrite window). -/
def r2b : UrBasicFlow :=
  { src_addr := addrV4 192 0 2 5, dst_addr := addrV4 203 0 113 1,
    first := 200 * 2 ^ 32, linkbitfield := 2, dirbitfield := 0 }

/-- Inbound record from 10.0.0.1 whose 64-bit link bitmask has only bit 32 set. -/
def r4 : UrBasicFlow :=
  { src_addr := addrV4 10 0 0 1, dst_addr := addrV4 192 0 2 5,
    first := 0, linkbitfield := 2 ^ 32, dirbitfield := 1 }

/-- Symmetry map holding, for the /24 of `r4`'s source, a stored link mask with
only bit 32 set. -/
def m4 : List (Nat × SymSrc) := [(Nat.land (ip_get_v4_as_int r4.src_addr) 0xFFFFFF00, ⟨2 ^ 32, 0⟩)]

/-- IPv6 prefix 2001:db8::/32. -/
def p5 : IpPref :=
  ⟨⟨[0x20, 0x01, 0x0d, 0xb8, 0, 0, 0, 0, 0, 0, 0, 0, 0, 0, 0, 0], false⟩, 32⟩

/-- IPv6 record with source 2001:db8:1::1. -/
def r5 : UrBasicFlow :=
  { src_addr := ⟨[0x20, 0x01, 0x0d, 0xb8, 0, 1, 0, 0, 0, 0, 0, 0, 0, 0, 0, 1], false⟩,
    dst_addr := ⟨[0, 0, 0, 0, 0, 0, 0, 0, 0, 0, 0, 0, 0, 0, 0, 0], false⟩,
    first := 0, linkbitfield := 0, dirbitfield := 1 }

/-- Configuration with every list empty. -/
def cfg7 : DetectorCfg :=
  { bogon4 := [], bogon6 := [], spec4 := [], spec6 := [],
    rw_time := 45, threshold := 1000 }

/-- Inbound IPv6 record with distinct address bytes (so that the symmetry
stage's in-place normalisation changes them) and link bitmask 3. -/
def r7 : UrBasicFlow :=
  { src_addr := ⟨[1, 2, 3, 4, 5, 6, 7, 8, 9, 10, 11, 12, 13, 14, 15, 16], false⟩,
    dst_addr := ⟨[16, 15, 14, 13, 12, 11, 10, 9, 8, 7, 6, 5, 4, 3, 2, 1], false⟩,
    first := 0, linkbitfield := 3, dirbitfield := 1 }

/-- State whose v6 symmetry map knows `r7`'s aggregated source with a link mask
disjoint from `r7`'s links. -/
def st7 : DetectorState :=
  { initState cfg7 with
    v6RouteSym := [((swapHalves r7.src_addr).ui64 0, ⟨4, none⟩)] }

/-- Key fact about the shifts the mask loops perform: shifting an all-ones
value right by `w - L` leaves the low `L` bits set. -/
theorem two_pow_shiftRight (w L : Nat) (h : L ≤ w) :
    (2 ^ w - 1) >>> (w - L) = 2 ^ L - 1 := by
  rw [Nat.shiftRight_eq_div_pow]
  obtain ⟨d, rfl⟩ := Nat.exists_eq_add_of_le h
  have hd : L + d - L = d := by omega
  rw [hd, pow_add]
  have h1 : (0 : Nat) < 2 ^ L := pow_pos (by norm_num) L
  have h2 : (0 : Nat) < 2 ^ d := pow_pos (by norm_num) d
  obtain ⟨a, ha⟩ : ∃ a, 2 ^ L = 1 + a := ⟨2 ^ L - 1, by omega⟩
  obtain ⟨b, hb⟩ : ∃ b, 2 ^ d = 1 + b := ⟨2 ^ d - 1, by omega⟩
  rw [ha, hb]
  have expand : (1 + a) * (1 + b) = b + (1 + b) * a + 1 := by ring
  rw [expand]
  have hsub : b + (1 + b) * a + 1 - 1 = b + (1 + b) * a := by omega
  rw [hsub]
  rw [Nat.add_mul_div_left _ _ (by omega : 0 < 1 + b)]
  rw [Nat.div_eq_of_lt (by omega : b < 1 + b)]
  omega

/-- Claim C1 (counterexample): the spec formula says the v4 table entry at
L = 1 is `0xFFFFFFFF << 31 = 0x80000000`, but the table the code builds has
entry 1 equal to `0xFFFFFFFF >> 31 = 1`. -/
theorem c1_counterexample :
    v4mm 1 = some 1 ∧ (0xFFFFFFFF <<< (32 - 1)) % 2 ^ 32 = 0x80000000 ∧
    (1 : Nat) ≠ 0x80000000 := by decide

/-- Claim C1 (amended): the tables built at startup satisfy: v4 entry `L`
(0..32) is `0xFFFFFFFF >> (32 - L)` = the low `L` bits (entry 0 explicitly 0);
v6 entry `L` has high word `~0 >> (64 - L)` (low `L` bits) and low word 0 for
`L < 64`; at `L = 64` the code's `i < 64` test puts the entry in the other
branch, giving high word `~0` and low word `~0` (not 0); for `L > 64` the high
word is `~0` and the low word is computed with a negative shift count
`64 - L`, which C++ leaves undefined. -/
theorem c1_amended (L : Nat) (hL : L ≤ 128) :
    v4mm L = (if L ≤ 32 then some (2 ^ L - 1) else none) ∧
    v6mm L = (some (if L < 64 then 2 ^ L - 1 else 2 ^ 64 - 1),
      if L < 64 then some 0 else if L = 64 then some (2 ^ 64 - 1) else none) := by
  constructor
  · unfold v4mm shr32
    by_cases h32 : L ≤ 32
    · rw [if_pos h32, if_pos h32]
      by_cases h0 : L = 0
      · simp [h0]
      · rw [if_neg h0]
        have hc : (0 : Int) ≤ 32 - (L : Int) ∧ 32 - (L : Int) < 32 := by
          constructor <;> omega
        rw [if_pos hc]
        have ht : (32 - (L : Int)).toNat = 32 - L := by omega
        rw [ht]
        have hval : (0xFFFFFFFF : Nat) = 2 ^ 32 - 1 := by norm_num
        rw [hval, two_pow_shiftRight 32 L h32]
    · rw [if_neg h32, if_neg h32]
  · unfold v6mm shr64
    rw [if_pos hL]
    by_cases h0 : L = 0
    · simp [h0]
    · rw [if_neg h0]
      by_cases h64 : L < 64
      · rw [if_pos h64, if_pos h64, if_pos h64]
        have hc : (0 : Int) ≤ 64 - (L : Int) ∧ 64 - (L : Int) < 64 := by
          constructor <;> omega
        rw [if_pos hc]
        have ht : (64 - (L : Int)).toNat = 64 - L := by omega
        rw [ht]
        have hval : (0xFFFFFFFFFFFFFFFF : Nat) = 2 ^ 64 - 1 := by norm_num
        rw [hval, two_pow_shiftRight 64 L (by omega)]
      · rw [if_neg h64, if_neg h64, if_neg h64]
        by_cases heq : L = 64
        · rw [if_pos heq, heq]
          have hc : (0 : Int) ≤ 64 - (64 : Nat) ∧ (64 : Int) - (64 : Nat) < 64 := by
            constructor <;> omega
          rw [if_pos hc]
          norm_num
        · rw [if_neg heq]
          have hc : ¬((0 : Int) ≤ 64 - (L : Int) ∧ 64 - (L : Int) < 64) := by omega
          rw [if_neg hc]
          norm_num

/-- Claim C1 (witness): the amended statement evaluated at L = 24 (a regular
entry) and at L = 100 (an entry whose low word is undefined). -/
theorem c1_witness :
    v4mm 24 = some (2 ^ 24 - 1) ∧ v6mm 24 = (some (2 ^ 24 - 1), some 0) ∧
    v6mm 100 = (some (2 ^ 64 - 1), none) := by
  have h24 := c1_amended 24 (by norm_num)
  have h100 := c1_amended 100 (by norm_num)
  refine ⟨?_, ?_, ?_⟩
  · rw [h24.1]; norm_num
  · rw [h24.2]; norm_num
  · rw [h100.2]; norm_num

/-- Claim C2 (code evaluation at the failing input): after an outbound record
to 203.0.113.1 with link 1 at seconds 100, a second outbound record to the
same /24 with link 2 at seconds 200 (outside the 45-second window) leaves the
map entry COMPLETELY unchanged — `map::insert` does nothing for a present key —
instead of rewriting it to `{link 2, timestamp 200·2^32}` as the claim states. -/
theorem c2_code_eval :
    check_symetry_v4 r2b (check_symetry_v4 r2a [] 45).2 45 =
      (Verdict.negative, [(3405803776, ⟨1, 100 * 2 ^ 32⟩)]) ∧
    r2b.linkbitfield = 2 ∧ r2b.first = 200 * 2 ^ 32 := by decide

/-- Claim C3 (code evaluation at the failing input): with an empty v4
watched-prefix list the binary-search loop of `check_new_flows_v4` never runs,
and the following `if (search_result != 0)` reads the uninitialized
`search_result` — no defined result (`none`), rather than the NEGATIVE the
claim states. -/
theorem c3_code_eval :
    check_new_flows_v4 r0 1000 (create_nflow_filters 0) [] = none := by decide

/-- Claim C5 (code evaluation at the failing input): for the single watched
prefix 2001:db8::/32 and source 2001:db8:1::1, the v6 bogon binary search
(which masks the HIGH half for lengths ≤ 64 and compares its 8 bytes) finds
the prefix (POSITIVE), while the new-flow filter's search — whose length test
is inverted — masks the LOW half and compares all 16 bytes of `masked`,
reading its never-assigned high half: no defined result (`none`). -/
theorem c5_code_eval :
    v6_bogon_filter r5 [p5] = some Verdict.positive ∧
    check_new_flows_v6 r5 1000 (create_nflow_filters 1) [p5] = none := by decide

/-- Claim C6 (code evaluation at the failing input): in the v6 mask table the
low word of entry 64 is `~0` (the `i < 64` boundary places L = 64 in the else
branch) and the low word of entry 65 is computed with the negative shift count
`64 - 65`, hence undefined; the claimed monotonicity equation at L = 65 has no
defined left-hand side (and under the usual x86 shift semantics it is false:
`1 & ~0 ≠ ~0`). -/
theorem c6_code_eval :
    (v6mm 65).2 = none ∧ (v6mm 64).2 = some (2 ^ 64 - 1) := by decide

/-- Claim C9 (code evaluation at the failing input): `main` stores the result
of loading the `-c` file into the same `retval` it used for the `-b` file, so
with an unreadable bogon file and a readable `-c` file the run loop IS entered
(first conjunct), while a readable bogon file with an absent/unreadable `-c`
file makes the program exit (second conjunct) — both contrary to the claim. -/
theorem c9_code_eval :
    mainEntersLoop true false true = true ∧ mainEntersLoop true true false = false := by
  decide

/-- Claim C4 (counterexample): an inbound record whose aggregated source key is
present with stored link mask `2^32` and whose own link bitmask is `2^32` has a
NONZERO 64-bit AND of the two masks, yet the filter returns POSITIVE — the code
truncates the AND to a 32-bit `int` before the zero test. -/
theorem c4_counterexample :
    r4.dirbitfield = 1 ∧
    mLookup m4 (Nat.land (ip_get_v4_as_int r4.src_addr) 0xFFFFFF00) =
      some ⟨2 ^ 32, 0⟩ ∧
    Nat.land (2 ^ 32) r4.linkbitfield ≠ 0 ∧
    (check_symetry_v4 r4 m4 45).1 = Verdict.positive := by decide

/-- Claim C4 (amended): for every inbound record (`dirbitfield = 1`) whose
aggregated source key is present in the symmetry map, the filter returns
POSITIVE exactly when the LOW 32 BITS of the bitwise AND of the stored link
mask and the record's link bitmask are zero (the code assigns the 64-bit AND
to a 32-bit `int` before testing it); when the key is absent it returns
NEGATIVE.  The same holds for the v6 variant on the normalised record. -/
theorem c4_amended (r : UrBasicFlow) (mv4 : List (Nat × SymSrc))
    (mv6 : List (Nat × SymSrcV6)) (rw : Nat) (hdir : r.dirbitfield = 1) :
    (∀ e, mLookup mv4 (Nat.land (ip_get_v4_as_int r.src_addr) 0xFFFFFF00) = some e →
      check_symetry_v4 r mv4 rw =
        ((if Nat.land e.link r.linkbitfield % 2 ^ 32 = 0 then Verdict.positive
          else Verdict.negative), mv4)) ∧
    (mLookup mv4 (Nat.land (ip_get_v4_as_int r.src_addr) 0xFFFFFF00) = none →
      check_symetry_v4 r mv4 rw = (Verdict.negative, mv4)) ∧
    (∀ e, mLookup mv6 ((swapHalves r.src_addr).ui64 0) = some e →
      check_symetry_v6 r mv6 rw =
        some ((if Nat.land e.link r.linkbitfield % 2 ^ 32 = 0 then Verdict.positive
          else Verdict.negative), mv6, swapRecord r)) ∧
    (mLookup mv6 ((swapHalves r.src_addr).ui64 0) = none →
      check_symetry_v6 r mv6 rw = some (Verdict.negative, mv6, swapRecord r)) := by
  refine ⟨?_, ?_, ?_, ?_⟩
  · intro e he
    simp [check_symetry_v4, hdir, he]
    split_ifs <;> rfl
  · intro he
    simp [check_symetry_v4, hdir, he]
  · intro e he
    simp [check_symetry_v6, swapRecord, hdir, he]
  · intro he
    simp [check_symetry_v6, swapRecord, hdir, he]

/-- Claim C4 (witness): the amended statement applied to the concrete inbound
record `r4` and map `m4`, where the stored entry has link mask `2^32`. -/
theorem c4_witness :
    r4.dirbitfield = 1 ∧ check_symetry_v4 r4 m4 45 = (Verdict.positive, m4) := by
  refine ⟨rfl, ?_⟩
  have h := (c4_amended r4 m4 [] 45 rfl).1 ⟨2 ^ 32, 0⟩ (by decide)
  rw [h]
  decide

/-- Every defined execution of `check_symetry_v6` returns the record with both
addresses normalised in place. -/
theorem check_symetry_v6_record (r : UrBasicFlow) (src : List (Nat × SymSrcV6))
    (rw : Nat) (v : Verdict) (m' : List (Nat × SymSrcV6)) (r1 : UrBasicFlow)
    (h : check_symetry_v6 r src rw = some (v, m', r1)) : r1 = swapRecord r := by
  simp only [check_symetry_v6] at h
  split at h
  · split at h
    · split at h
      · exact absurd h (by simp)
      · split at h <;> simp_all
    · simp_all
  · split at h <;> simp_all

/-- Claim C7 (counterexample): the inbound IPv6 record `r7` is flagged POSITIVE
by the symmetric-route filter, and the record emitted is the one mutated in
place by that filter — its address bytes differ from the record as received. -/
theorem c7_counterexample :
    processRecord cfg7 st7 r7 = some (st7, some (swapRecord r7)) ∧
    swapRecord r7 ≠ r7 := by decide

/-- Claim C7 (amended): a record emitted by the pipeline is byte-identical to
the record received when the record is IPv4, or when it was flagged by the
bogon stage; an IPv6 record that reaches the symmetric-route filter (bogon
NEGATIVE) is emitted with the bytes of each 64-bit half of both of its
addresses reversed — the in-place normalisation of `check_symetry_v6`. -/
theorem c7_amended (cfg : DetectorCfg) (st : DetectorState) (r : UrBasicFlow)
    (st' : DetectorState) (out : UrBasicFlow)
    (h : processRecord cfg st r = some (st', some out)) :
    (ip_is4 r.src_addr = true → out = r) ∧
    (bogonStage cfg r = some Verdict.positive → out = r) ∧
    (ip_is4 r.src_addr = false → bogonStage cfg r = some Verdict.negative →
      out = swapRecord r) := by
  unfold processRecord at h
  cases hb : bogonStage cfg r with
  | none => simp [hb] at h
  | some v =>
    simp only [hb] at h
    cases v with
    | positive =>
      simp only [Option.some.injEq, Prod.mk.injEq] at h
      exact ⟨fun _ => h.2.symm, fun _ => h.2.symm,
        fun _ hneg => absurd hneg (by simp [hb])⟩
    | negative =>
      by_cases hf : ip_is4 r.src_addr
      · simp only [if_pos hf] at h
        have hout : out = r := by
          cases hcs : check_symetry_v4 r st.v4RouteSym cfg.rw_time with
          | mk v1 m' =>
            simp only [hcs] at h
            cases v1 with
            | positive =>
              simp only [Option.some.injEq, Prod.mk.injEq] at h
              exact h.2.symm
            | negative =>
              cases hnf : check_new_flows_v4 r cfg.threshold st.v4Flows cfg.spec4 with
              | none => simp [hnf] at h
              | some p =>
                obtain ⟨v2, fp'⟩ := p
                simp only [hnf] at h
                cases v2 with
                | positive =>
                  simp only [reduceIte] at h
                  simp only [Option.some.injEq, Prod.mk.injEq] at h
                  exact h.2.symm
                | negative => simp at h
        exact ⟨fun _ => hout, fun hpos => absurd hpos (by simp [hb]),
          fun hf' _ => absurd hf' (by simp [hf])⟩
      · simp only [if_neg hf] at h
        have hout : out = swapRecord r := by
          cases hcs : check_symetry_v6 r st.v6RouteSym cfg.rw_time with
          | none => simp [hcs] at h
          | some q =>
            obtain ⟨v1, m', r1⟩ := q
            have hr1 : r1 = swapRecord r :=
              check_symetry_v6_record r st.v6RouteSym cfg.rw_time v1 m' r1 hcs
            simp only [hcs] at h
            cases v1 with
            | positive =>
              simp only [Option.some.injEq, Prod.mk.injEq] at h
              exact h.2 ▸ hr1
            | negative =>
              cases hnf : check_new_flows_v6 r1 cfg.threshold st.v6Flows cfg.spec6 with
              | none => simp [hnf] at h
              | some p =>
                obtain ⟨v2, fp'⟩ := p
                simp only [hnf] at h
                cases v2 with
                | positive =>
                  simp only [reduceIte] at h
                  simp only [Option.some.injEq, Prod.mk.injEq] at h
                  exact h.2 ▸ hr1
                | negative => simp at h
        exact ⟨fun hf' => absurd hf' hf, fun hpos => absurd hpos (by simp [hb]),
          fun _ _ => hout⟩

/-- Claim C7 (witness): the amended statement applied to the concrete IPv6
record `r7` flagged by the symmetry filter under `cfg7`/`st7`. -/
theorem c7_witness :
    ip_is4 r7.src_addr = false ∧ bogonStage cfg7 r7 = some Verdict.negative ∧
    swapRecord r7 = swapRecord r7 :=
  ⟨by decide, by decide,
    (c7_amended cfg7 st7 r7 st7 (swapRecord r7) (by decide)).2.2 (by decide) (by decide)⟩

/-- Claim C8: when the bogon/specific stage returns POSITIVE for a record, the
pipeline emits that record unchanged and the whole detector state — in
particular both symmetry maps and both new-flow filter pairs — is exactly the
state before the record: the later stages are never evaluated. -/
theorem c8_theorem (cfg : DetectorCfg) (st : DetectorState) (r : UrBasicFlow)
    (h : bogonStage cfg r = some Verdict.positive) :
    processRecord cfg st r = some (st, some r) := by
  unfold processRecord
  rw [h]

/-- Claim C8 (witness): the record from bogon source 10.1.2.3 under the bogon
set `{10.0.0.0/8}` is flagged by the bogon stage and processed without any
state change. -/
theorem c8_witness :
    bogonStage cfg0 r0 = some Verdict.positive ∧
    processRecord cfg0 st0 r0 = some (st0, some r0) :=
  ⟨by decide, c8_theorem cfg0 st0 r0 (by decide)⟩

/-- `check_new_flows_v4` either touches neither side or inserts into both
buckets at the same index: equality of the active and learning arrays is
preserved. -/
theorem check_new_flows_v4_actlrn (r : UrBasicFlow) (th : Nat) (fp : FlowFilterPair)
    (pl : List IpPref) (v : Verdict) (fp' : FlowFilterPair)
    (h : check_new_flows_v4 r th fp pl = some (v, fp'))
    (hal : fp.act = fp.lrn) : fp'.act = fp'.lrn := by
  simp only [check_new_flows_v4] at h
  split at h
  · exact absurd h (by simp)
  · split at h
    · exact absurd h (by simp)
    · simp only [Option.some.injEq, Prod.mk.injEq] at h
      rw [← h.2]; exact hal
    · split at h
      · exact absurd h (by simp)
      · split at h
        · simp only [Option.some.injEq, Prod.mk.injEq] at h
          rw [← h.2]; exact hal
        · simp only [Option.some.injEq, Prod.mk.injEq] at h
          rw [← h.2]
          show listModif fp.act _ _ = listModif fp.lrn _ _
          rw [hal]

/-- `check_new_flows_v6` either touches neither side or inserts into both
buckets at the same index: equality of the active and learning arrays is
preserved. -/
theorem check_new_flows_v6_actlrn (r : UrBasicFlow) (th : Nat) (fp : FlowFilterPair)
    (pl : List IpPref) (v : Verdict) (fp' : FlowFilterPair)
    (h : check_new_flows_v6 r th fp pl = some (v, fp'))
    (hal : fp.act = fp.lrn) : fp'.act = fp'.lrn := by
  simp only [check_new_flows_v6] at h
  split at h
  · exact absurd h (by simp)
  · split at h
    · exact absurd h (by simp)
    · simp only [Option.some.injEq, Prod.mk.injEq] at h
      rw [← h.2]; exact hal
    · split at h
      · exact absurd h (by simp)
      · split at h
        · simp only [Option.some.injEq, Prod.mk.injEq] at h
          rw [← h.2]; exact hal
        · simp only [Option.some.injEq, Prod.mk.injEq] at h
          rw [← h.2]
          show listModif fp.act _ _ = listModif fp.lrn _ _
          rw [hal]

/-- Processing one record preserves equality of the active and learning bucket
arrays for both families. -/
theorem processRecord_actlrn (cfg : DetectorCfg) (st : DetectorState)
    (r : UrBasicFlow) (st' : DetectorState) (out : Option UrBasicFlow)
    (h : processRecord cfg st r = some (st', out))
    (h4 : st.v4Flows.act = st.v4Flows.lrn) (h6 : st.v6Flows.act = st.v6Flows.lrn) :
    st'.v4Flows.act = st'.v4Flows.lrn ∧ st'.v6Flows.act = st'.v6Flows.lrn := by
  unfold processRecord at h
  cases hb : bogonStage cfg r with
  | none => simp [hb] at h
  | some v =>
    simp only [hb] at h
    cases v with
    | positive =>
      simp only [Option.some.injEq, Prod.mk.injEq] at h
      rw [← h.1]; exact ⟨h4, h6⟩
    | negative =>
      by_cases hf : ip_is4 r.src_addr
      · simp only [if_pos hf] at h
        cases hcs : check_symetry_v4 r st.v4RouteSym cfg.rw_time with
        | mk v1 m' =>
          simp only [hcs] at h
          cases v1 with
          | positive =>
            simp only [Option.some.injEq, Prod.mk.injEq] at h
            rw [← h.1]; exact ⟨h4, h6⟩
          | negative =>
            cases hnf : check_new_flows_v4 r cfg.threshold st.v4Flows cfg.spec4 with
            | none => simp [hnf] at h
            | some p =>
              obtain ⟨v2, fp'⟩ := p
              simp only [hnf] at h
              have hp := check_new_flows_v4_actlrn r cfg.threshold st.v4Flows
                cfg.spec4 v2 fp' hnf h4
              simp only [Option.some.injEq, Prod.mk.injEq] at h
              rw [← h.1]; exact ⟨hp, h6⟩
      · simp only [if_neg hf] at h
        cases hcs : check_symetry_v6 r st.v6RouteSym cfg.rw_time with
        | none => simp [hcs] at h
        | some q =>
          obtain ⟨v1, m', r1⟩ := q
          simp only [hcs] at h
          cases v1 with
          | positive =>
            simp only [Option.some.injEq, Prod.mk.injEq] at h
            rw [← h.1]; exact ⟨h4, h6⟩
          | negative =>
            cases hnf : check_new_flows_v6 r1 cfg.threshold st.v6Flows cfg.spec6 with
            | none => simp [hnf] at h
            | some p =>
              obtain ⟨v2, fp'⟩ := p
              simp only [hnf] at h
              have hp := check_new_flows_v6_actlrn r1 cfg.threshold st.v6Flows
                cfg.spec6 v2 fp' hnf h6
              simp only [Option.some.injEq, Prod.mk.injEq] at h
              rw [← h.1]; exact ⟨h4, hp⟩

/-- In every reachable detector state the active and learning bucket arrays of
each family are equal (they start as equal replicates and every step updates
both in lockstep). -/
theorem reachable_actlrn (cfg : DetectorCfg) (st : DetectorState)
    (h : Reachable cfg st) :
    st.v4Flows.act = st.v4Flows.lrn ∧ st.v6Flows.act = st.v6Flows.lrn := by
  induction h with
  | init => exact ⟨rfl, rfl⟩
  | step st r st' out hr hp ih =>
    exact processRecord_actlrn cfg st r st' out hp ih.1 ih.2

/-- Claim C10: in every reachable detector state, for each address family the
active and learning sides have buckets of the same number, and the bucket at
every index holds equal counts on the two sides — creation gives both count 0,
every record increments both counts or neither, and the run loop never rotates
or clears one side alone. -/
theorem c10_theorem (cfg : DetectorCfg) (st : DetectorState) (h : Reachable cfg st) :
    (st.v4Flows.act.length = st.v4Flows.lrn.length ∧
      ∀ i, (st.v4Flows.act.get? i).map FlowCount.count =
        (st.v4Flows.lrn.get? i).map FlowCount.count) ∧
    (st.v6Flows.act.length = st.v6Flows.lrn.length ∧
      ∀ i, (st.v6Flows.act.get? i).map FlowCount.count =
        (st.v6Flows.lrn.get? i).map FlowCount.count) := by
  obtain ⟨h4, h6⟩ := reachable_actlrn cfg st h
  rw [h4, h6]
  exact ⟨⟨rfl, fun i => rfl⟩, ⟨rfl, fun i => rfl⟩⟩

/-- Claim C10 (witness): the invariant instantiated at the initial state of the
example configuration, which is reachable by construction. -/
theorem c10_witness :
    ((initState cfg0).v4Flows.act.length = (initState cfg0).v4Flows.lrn.length ∧
      ∀ i, ((initState cfg0).v4Flows.act.get? i).map FlowCount.count =
        ((initState cfg0).v4Flows.lrn.get? i).map FlowCount.count) ∧
    ((initState cfg0).v6Flows.act.length = (initState cfg0).v6Flows.lrn.length ∧
      ∀ i, ((initState cfg0).v6Flows.act.get? i).map FlowCount.count =
        ((initState cfg0).v6Flows.lrn.get? i).map FlowCount.count) :=
  c10_theorem cfg0 (initState cfg0) Reachable.init
